import Mathlib

/-!
Verification of the exception-based-comms speed test (src/main.cpp).

The program is embedded shallowly: each C++ function becomes a pure Lean
function over explicit inputs.  OS interactions (debug-event delivery,
shared-memory reads, API success/failure) are supplied as explicit data
(a finite stream of wait results, a world record of observed values), and
the functions return the observable outcome (final count, exit status,
action trace).
-/

namespace ExceptionComms

/-- Custom exception code for communication (src/main.cpp line 18). -/
def kExceptionCommsCode : Nat := 0x1337

/-- Number of messages to send per round (src/main.cpp line 21). -/
def kTestIterations : Nat := 10000

/-- Windows constant: the debug-event code of an exception event. -/
def EXCEPTION_DEBUG_EVENT : Nat := 1

/-- Windows constant: continue status passed to ContinueDebugEvent at line 66. -/
def DBG_CONTINUE : Nat := 0x00010002

/-- Windows constant: filter value meaning the handler runs and execution
continues after the handler block. -/
def EXCEPTION_EXECUTE_HANDLER : Int := 1

/-- Windows constant: last-error value set when CreateFileMappingA opened a
pre-existing mapping instead of creating a fresh one. -/
def ERROR_ALREADY_EXISTS : Nat := 183

/-- Windows constant: successful process exit status (EXIT_SUCCESS). -/
def EXIT_SUCCESS : Nat := 0

/-- Windows constant: failing process exit status (EXIT_FAILURE). -/
def EXIT_FAILURE : Nat := 1

/-- Machine words (ULONG_PTR) are 64-bit; arithmetic on them wraps mod 2^64. -/
def ULONG_PTR_MOD : Nat := 2 ^ 64

/-- The part of a Windows EXCEPTION_RECORD read by the counting loop
(lines 60-62 of src/main.cpp). -/
structure EXCEPTION_RECORD where
  ExceptionCode : Nat
  NumberParameters : Nat
  ExceptionInformation : List Nat
deriving DecidableEq, Repr

/-- The part of a Windows DEBUG_EVENT read by the counting loop.  The union
member u.Exception.ExceptionRecord is modelled as an always-present field;
the code only reads it when dwDebugEventCode = EXCEPTION_DEBUG_EVENT. -/
structure DEBUG_EVENT where
  dwDebugEventCode : Nat
  dwProcessId : Nat
  dwThreadId : Nat
  ExceptionRecord : EXCEPTION_RECORD
deriving DecidableEq, Repr

/-- The classification test of the loop body, lines 59-64 of src/main.cpp:
the event is an exception debug event whose code equals the sentinel and
whose parameter count is at least two. -/
def classifyEvent (event : DEBUG_EVENT) : Bool :=
  event.dwDebugEventCode == EXCEPTION_DEBUG_EVENT &&
    (event.ExceptionRecord.ExceptionCode == kExceptionCommsCode &&
      2 ≤ event.ExceptionRecord.NumberParameters)

/-- Result of one WaitForDebugEvent call: either an event was delivered or
the call failed. -/
inductive WaitResult where
  | ok (event : DEBUG_EVENT)
  | fail
deriving DecidableEq, Repr

/-- Observable actions of the counting loop, in order: a successful wait
returning an event, the matching ContinueDebugEvent call, or a failed wait
(which the code reports to standard error). -/
inductive DbgAction where
  | waitOk (event : DEBUG_EVENT)
  | contEvent (pid tid status : Nat)
  | waitFail
deriving DecidableEq, Repr

/-- Why the counting loop stopped consuming events. -/
inductive LoopExit where
  | reachedTarget
  | waitFailure
  | starved
deriving DecidableEq, Repr

/-- Outcome of the counting loop of src/main.cpp lines 55-73. -/
structure LoopResult where
  count : Nat
  exit : LoopExit
  trace : List DbgAction
deriving DecidableEq, Repr

/-- The counting loop, lines 57-73 of src/main.cpp.  The stream lists the
results the successive WaitForDebugEvent calls would return; if the loop is
still below its target when the stream runs out, the real loop would block
forever in WaitForDebugEvent, recorded as LoopExit.starved. -/
def debugLoop (iterations : Nat) : Nat → List WaitResult → LoopResult
  | count, [] =>
      if iterations ≤ count then ⟨count, .reachedTarget, []⟩
      else ⟨count, .starved, []⟩
  | count, r :: rest =>
      if iterations ≤ count then ⟨count, .reachedTarget, []⟩
      else
        match r with
        | .ok event =>
            let count' := if classifyEvent event then count + 1 else count
            let res := debugLoop iterations count' rest
            ⟨res.count, res.exit,
              .waitOk event ::
                .contEvent event.dwProcessId event.dwThreadId DBG_CONTINUE ::
                  res.trace⟩
        | .fail => ⟨count, .waitFailure, [.waitFail]⟩

/-- A sentinel event as raised by the sender: exception debug event, comms
code, two parameters. -/
def sentinelEvent (pid tid addr len : Nat) : DEBUG_EVENT :=
  { dwDebugEventCode := EXCEPTION_DEBUG_EVENT
    dwProcessId := pid
    dwThreadId := tid
    ExceptionRecord :=
      { ExceptionCode := kExceptionCommsCode
        NumberParameters := 2
        ExceptionInformation := [addr, len] } }

example :
    (debugLoop 2 0 [.ok (sentinelEvent 5 6 100 14), .ok (sentinelEvent 5 6 100 14)]).count
      = 2 := by decide

example :
    (debugLoop 2 0 [.ok ⟨3, 5, 6, ⟨9, 0, []⟩⟩, .ok (sentinelEvent 5 6 100 14)]).count
      = 1 := by decide

example : (debugLoop 2 0 [.ok (sentinelEvent 5 6 100 14), .fail]).exit
      = LoopExit.waitFailure := by decide

/-! ## Exception sender (SendMessageException, lines 30-42) -/

/-- The record produced by a RaiseException call, as visible to a debugger:
code, flags, number of parameters, and the parameter words. -/
structure RaisedException where
  ExceptionCode : Nat
  dwExceptionFlags : Nat
  nNumberOfArguments : Nat
  lpArguments : List Nat
deriving DecidableEq, Repr

/-- SEH dispatch outcome for the raising frame. -/
inductive SehResult where
  | handledLocally
  | propagated
deriving DecidableEq, Repr

/-- SEH semantics of a filter expression: the value EXCEPTION_EXECUTE_HANDLER
runs the handler and resumes after the handler block; any other value lets
the exception escape the frame. -/
def sehDispatch (filterValue : Int) : SehResult :=
  if filterValue = EXCEPTION_EXECUTE_HANDLER then .handledLocally else .propagated

/-- SendMessageException, lines 30-42 of src/main.cpp.  The string_view
argument is represented by the address of its data and its size; the
ULONG_PTR casts wrap mod 2^64.  The raise is wrapped in a filter that
always answers EXCEPTION_EXECUTE_HANDLER, so the frame handles the
exception itself. -/
def SendMessageException (messageAddr messageSize : Nat) :
    RaisedException × SehResult :=
  let params : List Nat :=
    [messageAddr % ULONG_PTR_MOD, (messageSize + 1) % ULONG_PTR_MOD]
  let raised : RaisedException :=
    { ExceptionCode := kExceptionCommsCode
      dwExceptionFlags := 0
      nNumberOfArguments := 2
      lpArguments := params }
  (raised, sehDispatch EXCEPTION_EXECUTE_HANDLER)

/-! ## Debug-event counter wrapper (DebugPartnerProcess, lines 45-83) -/

/-- Environment of one DebugPartnerProcess call: whether DebugActiveProcess
succeeds, the stream of wait results, and whether DebugActiveProcessStop
succeeds. -/
structure DebugWorld where
  attachOk : Bool
  stream : List WaitResult
  detachOk : Bool

/-- Observable outcome of DebugPartnerProcess. -/
structure DebugOutcome where
  attachFailLogged : Bool
  count : Nat
  exit : Option LoopExit
  trace : List DbgAction
  detachCalled : Bool
  detachFailLogged : Bool
deriving DecidableEq, Repr

/-- DebugPartnerProcess, lines 45-83 of src/main.cpp: attach (on failure log
the error and return with nothing counted), run the counting loop from
count 0, then detach (logging a detach failure but nothing more). -/
def DebugPartnerProcess (iterations : Nat) (w : DebugWorld) : DebugOutcome :=
  if w.attachOk = false then
    { attachFailLogged := true, count := 0, exit := none, trace := []
      detachCalled := false, detachFailLogged := false }
  else
    let res := debugLoop iterations 0 w.stream
    { attachFailLogged := false, count := res.count, exit := some res.exit
      trace := res.trace, detachCalled := true
      detachFailLogged := w.detachOk = false }

/-! ## Round orchestration (RunSpeedTestRound / RunSwapRoleRound,
lines 88-129) -/

/-- Coarse actions of one round, in program order: a sleep of a number of
seconds, the timed loop of kTestIterations SendMessageException calls, or
the DebugPartnerProcess call with its target count. -/
inductive RoundAction where
  | sleepSeconds (n : Nat)
  | sendBatch (iterations : Nat)
  | countEvents (iterations : Nat)
deriving DecidableEq, Repr

/-- RunSpeedTestRound, lines 88-107: the server sleeps 3 seconds then sends;
the client runs DebugPartnerProcess immediately. -/
def RunSpeedTestRound (is_server : Bool) : List RoundAction :=
  if is_server then
    [RoundAction.sleepSeconds 3, RoundAction.sendBatch kTestIterations]
  else
    [RoundAction.countEvents kTestIterations]

/-- RunSwapRoleRound, lines 110-129: roles swapped; the client sleeps 3
seconds then sends, the server counts. -/
def RunSwapRoleRound (is_server : Bool) : List RoundAction :=
  if is_server then
    [RoundAction.countEvents kTestIterations]
  else
    [RoundAction.sleepSeconds 3, RoundAction.sendBatch kTestIterations]

/-- Lines 184-185 of main: round 1 runs to completion, then round 2. -/
def mainRounds (is_server : Bool) : List RoundAction :=
  RunSpeedTestRound is_server ++ RunSwapRoleRound is_server

/-! ## Role negotiation and main (lines 131-192) -/

/-- The named shared-memory record (src/main.cpp lines 23-26). -/
structure SharedData where
  server_pid : Nat
  client_pid : Nat
deriving DecidableEq, Repr

/-- The server-side wait loop of line 165:
for (int i = 0; i < 10 && shared->client_pid == 0; ++i) sleep(1).
The i-th condition check reads the shared client_pid field; the reads
observe values written concurrently by the other process, supplied here as
a function of the check index.  Returns the loop index at exit. -/
def pollLoop (reads : Nat → Nat) (i : Nat) : Nat :=
  if h : i < 10 ∧ reads i = 0 then pollLoop reads (i + 1) else i
termination_by 10 - i
decreasing_by omega

/-- Everything the environment decides for one run of main: the argument
vector (argv, element 0 being the program name), whether CreateFileMappingA
and MapViewOfFile succeed, the last-error value observed at line 156, the
process id of this run, the shared memory contents at the moment the view
is mapped, the client_pid values the server-side poll loop reads, and the
client_pid value read at line 168 after the poll loop. -/
structure World where
  argv : List String
  createMappingOk : Bool
  mapViewOk : Bool
  lastError : Nat
  myPid : Nat
  sharedAtOpen : SharedData
  pollReads : Nat → Nat
  finalRead : Nat

/-- Observable outcome of one run of main. -/
structure MainOutcome where
  exitCode : Nat
  printedUsage : Bool
  printedNoClient : Bool
  touchedMapping : Bool
  role : Option Bool
  partner : Option Nat
  sharedAfter : SharedData
  rounds : List RoundAction
deriving DecidableEq, Repr

/-- main, lines 131-192 of src/main.cpp, as a function of the environment.
sharedAfter is the shared-memory contents after the writes this process
performs during negotiation (unchanged on paths that never write). -/
def mainModel (w : World) : MainOutcome :=
  if w.argv.length < 2 ∨ ¬ (w.argv.get? 1 = some ("speed")) then
    { exitCode := EXIT_SUCCESS, printedUsage := true, printedNoClient := false
      touchedMapping := false, role := none, partner := none
      sharedAfter := w.sharedAtOpen, rounds := [] }
  else if w.createMappingOk = false then
    { exitCode := EXIT_FAILURE, printedUsage := false, printedNoClient := false
      touchedMapping := true, role := none, partner := none
      sharedAfter := w.sharedAtOpen, rounds := [] }
  else if w.mapViewOk = false then
    { exitCode := EXIT_FAILURE, printedUsage := false, printedNoClient := false
      touchedMapping := true, role := none, partner := none
      sharedAfter := w.sharedAtOpen, rounds := [] }
  else
    if w.lastError = ERROR_ALREADY_EXISTS then
      let partner_pid := w.sharedAtOpen.server_pid
      let sh : SharedData := { w.sharedAtOpen with client_pid := w.myPid }
      { exitCode := EXIT_SUCCESS, printedUsage := false, printedNoClient := false
        touchedMapping := true, role := some false, partner := some partner_pid
        sharedAfter := sh, rounds := mainRounds false }
    else
      let sh : SharedData := { server_pid := w.myPid, client_pid := 0 }
      let _i := pollLoop w.pollReads 0
      let partner_pid := w.finalRead
      if partner_pid = 0 then
        { exitCode := EXIT_FAILURE, printedUsage := false, printedNoClient := true
          touchedMapping := true, role := some true, partner := none
          sharedAfter := sh, rounds := [] }
      else
        { exitCode := EXIT_SUCCESS, printedUsage := false, printedNoClient := false
          touchedMapping := true, role := some true, partner := some partner_pid
          sharedAfter := sh, rounds := mainRounds true }

/-- The usage branch of line 132: fewer than two argv entries, or argv[1]
differing from the literal string speed. -/
def usageInvocation (w : World) : Prop :=
  w.argv.length < 2 ∨ ¬ (w.argv.get? 1 = some ("speed"))

instance (w : World) : Decidable (usageInvocation w) := by
  unfold usageInvocation; infer_instance

/-! ## Trace predicates -/

/-- True on the trace entry recording a failed wait. -/
def isWaitFail : DbgAction → Bool
  | .waitFail => true
  | _ => false

/-- True on the trace entry recording a successfully received event. -/
def isWaitOk : DbgAction → Bool
  | .waitOk _ => true
  | _ => false

/-- Number of failed waits recorded in a trace. -/
def numWaitFail (tr : List DbgAction) : Nat := (tr.filter isWaitFail).length

/-- Number of received events recorded in a trace. -/
def numWaitOk (tr : List DbgAction) : Nat := (tr.filter isWaitOk).length

/-- A trace is well acknowledged when every received event is immediately
followed by exactly one ContinueDebugEvent call - carrying that same
process id and thread id and the DBG_CONTINUE status - before any further
wait, and a failed wait, if any, is the last entry. -/
def wellAcked : List DbgAction → Bool
  | [] => true
  | .waitOk event :: .contEvent p t s :: rest =>
      (p == event.dwProcessId &&
        (t == event.dwThreadId && s == DBG_CONTINUE)) && wellAcked rest
  | [.waitFail] => true
  | _ => false

/-! ## Unfolding lemmas for the counting loop -/

theorem debugLoop_nil (iterations count : Nat) :
    debugLoop iterations count [] =
      if iterations ≤ count then ⟨count, .reachedTarget, []⟩
      else ⟨count, .starved, []⟩ := by
  simp [debugLoop]

theorem debugLoop_done (iterations count : Nat) (stream : List WaitResult)
    (h : iterations ≤ count) :
    debugLoop iterations count stream = ⟨count, .reachedTarget, []⟩ := by
  cases stream <;> simp [debugLoop, h]

theorem debugLoop_cons_ok (iterations count : Nat) (event : DEBUG_EVENT)
    (rest : List WaitResult) (h : ¬ iterations ≤ count) :
    debugLoop iterations count (WaitResult.ok event :: rest) =
      ⟨(debugLoop iterations
          (if classifyEvent event then count + 1 else count) rest).count,
        (debugLoop iterations
          (if classifyEvent event then count + 1 else count) rest).exit,
        DbgAction.waitOk event ::
          DbgAction.contEvent event.dwProcessId event.dwThreadId DBG_CONTINUE ::
            (debugLoop iterations
              (if classifyEvent event then count + 1 else count) rest).trace⟩ := by
  simp [debugLoop, h]

theorem debugLoop_cons_fail (iterations count : Nat) (rest : List WaitResult)
    (h : ¬ iterations ≤ count) :
    debugLoop iterations count (WaitResult.fail :: rest) =
      ⟨count, .waitFailure, [.waitFail]⟩ := by
  simp [debugLoop, h]

/-! ## Invariants of the counting loop -/

theorem debugLoop_count_ge (iterations : Nat) :
    ∀ (stream : List WaitResult) (count : Nat),
      count ≤ (debugLoop iterations count stream).count := by
  intro stream
  induction stream with
  | nil =>
      intro count
      rw [debugLoop_nil]
      by_cases h : iterations ≤ count <;> simp [h]
  | cons r rest ih =>
      intro count
      by_cases h : iterations ≤ count
      · rw [debugLoop_done iterations count _ h]
      · cases r with
        | ok event =>
            rw [debugLoop_cons_ok iterations count event rest h]
            have := ih (if classifyEvent event then count + 1 else count)
            by_cases hc : classifyEvent event <;> simp [hc] at this ⊢ <;> omega
        | fail =>
            rw [debugLoop_cons_fail iterations count rest h]

theorem debugLoop_count_le (iterations : Nat) :
    ∀ (stream : List WaitResult) (count : Nat), count ≤ iterations →
      (debugLoop iterations count stream).count ≤ iterations := by
  intro stream
  induction stream with
  | nil =>
      intro count hle
      rw [debugLoop_nil]
      by_cases h : iterations ≤ count <;> simp [h, hle]
  | cons r rest ih =>
      intro count hle
      by_cases h : iterations ≤ count
      · rw [debugLoop_done iterations count _ h]; exact hle
      · cases r with
        | ok event =>
            rw [debugLoop_cons_ok iterations count event rest h]
            have := ih (if classifyEvent event then count + 1 else count)
            by_cases hc : classifyEvent event <;> simp [hc] at this ⊢ <;> omega
        | fail =>
            rw [debugLoop_cons_fail iterations count rest h]; exact hle

theorem debugLoop_exit_reached_iff (iterations : Nat) :
    ∀ (stream : List WaitResult) (count : Nat), count ≤ iterations →
      ((debugLoop iterations count stream).exit = LoopExit.reachedTarget ↔
        (debugLoop iterations count stream).count = iterations) := by
  intro stream
  induction stream with
  | nil =>
      intro count hle
      rw [debugLoop_nil]
      by_cases h : iterations ≤ count <;> simp [h] <;> omega
  | cons r rest ih =>
      intro count hle
      by_cases h : iterations ≤ count
      · rw [debugLoop_done iterations count _ h]
        simp; omega
      · cases r with
        | ok event =>
            rw [debugLoop_cons_ok iterations count event rest h]
            have := ih (if classifyEvent event then count + 1 else count)
            by_cases hc : classifyEvent event <;> simp [hc] at this ⊢ <;>
              exact this (by omega)
        | fail =>
            rw [debugLoop_cons_fail iterations count rest h]
            simp; omega

theorem debugLoop_count_le_events (iterations : Nat) :
    ∀ (stream : List WaitResult) (count : Nat),
      (debugLoop iterations count stream).count ≤
        count + numWaitOk (debugLoop iterations count stream).trace := by
  intro stream
  induction stream with
  | nil =>
      intro count
      rw [debugLoop_nil]
      by_cases h : iterations ≤ count <;> simp [h, numWaitOk]
  | cons r rest ih =>
      intro count
      by_cases h : iterations ≤ count
      · rw [debugLoop_done iterations count _ h]; simp [numWaitOk]
      · cases r with
        | ok event =>
            rw [debugLoop_cons_ok iterations count event rest h]
            have := ih (if classifyEvent event then count + 1 else count)
            by_cases hc : classifyEvent event <;>
              simp [hc, numWaitOk, isWaitOk, List.filter] at this ⊢ <;> omega
        | fail =>
            rw [debugLoop_cons_fail iterations count rest h]
            simp [numWaitOk, isWaitOk, List.filter]

theorem debugLoop_wellAcked (iterations : Nat) :
    ∀ (stream : List WaitResult) (count : Nat),
      wellAcked (debugLoop iterations count stream).trace = true := by
  intro stream
  induction stream with
  | nil =>
      intro count
      rw [debugLoop_nil]
      by_cases h : iterations ≤ count <;> simp [h, wellAcked]
  | cons r rest ih =>
      intro count
      by_cases h : iterations ≤ count
      · rw [debugLoop_done iterations count _ h]; simp [wellAcked]
      · cases r with
        | ok event =>
            rw [debugLoop_cons_ok iterations count event rest h]
            simp [wellAcked, ih]
        | fail =>
            rw [debugLoop_cons_fail iterations count rest h]
            simp [wellAcked]

theorem debugLoop_numWaitFail (iterations : Nat) :
    ∀ (stream : List WaitResult) (count : Nat),
      numWaitFail (debugLoop iterations count stream).trace =
        if (debugLoop iterations count stream).exit = LoopExit.waitFailure
        then 1 else 0 := by
  intro stream
  induction stream with
  | nil =>
      intro count
      rw [debugLoop_nil]
      by_cases h : iterations ≤ count <;> simp [h, numWaitFail]
  | cons r rest ih =>
      intro count
      by_cases h : iterations ≤ count
      · rw [debugLoop_done iterations count _ h]; simp [numWaitFail]
      · cases r with
        | ok event =>
            rw [debugLoop_cons_ok iterations count event rest h]
            have := ih (if classifyEvent event then count + 1 else count)
            simp [numWaitFail, isWaitFail, List.filter] at this ⊢
            exact this
        | fail =>
            rw [debugLoop_cons_fail iterations count rest h]
            simp [numWaitFail, isWaitFail, List.filter]

theorem debugLoop_waitFailure_last (iterations : Nat) :
    ∀ (stream : List WaitResult) (count : Nat),
      (debugLoop iterations count stream).exit = LoopExit.waitFailure →
        (debugLoop iterations count stream).trace.getLast? =
          some DbgAction.waitFail := by
  intro stream
  induction stream with
  | nil =>
      intro count hx
      rw [debugLoop_nil] at hx ⊢
      by_cases h : iterations ≤ count <;> simp [h] at hx
  | cons r rest ih =>
      intro count hx
      by_cases h : iterations ≤ count
      · rw [debugLoop_done iterations count _ h] at hx
        simp at hx
      · cases r with
        | ok event =>
            rw [debugLoop_cons_ok iterations count event rest h] at hx ⊢
            simp at hx ⊢
            have hlast := ih (if classifyEvent event then count + 1 else count) hx
            have hne : (debugLoop iterations
                (if classifyEvent event then count + 1 else count) rest).trace ≠ [] := by
              intro hemp
              rw [hemp] at hlast
              simp at hlast
            obtain ⟨a, l, htr⟩ := List.exists_cons_of_ne_nil hne
            rw [htr] at hlast ⊢
            rw [List.getLast?_cons_cons]
            exact hlast
        | fail =>
            rw [debugLoop_cons_fail iterations count rest h]
            simp

/-! ## Poll-loop bound and main characterizations -/

theorem pollLoop_le (reads : Nat → Nat) (i : Nat) :
    pollLoop reads i ≤ max i 10 := by
  rw [pollLoop]
  split
  · have ih := pollLoop_le reads (i + 1)
    next h => omega
  · omega
termination_by 10 - i
decreasing_by omega

theorem mainModel_usage (w : World) (h : usageInvocation w) :
    mainModel w =
      { exitCode := EXIT_SUCCESS, printedUsage := true, printedNoClient := false
        touchedMapping := false, role := none, partner := none
        sharedAfter := w.sharedAtOpen, rounds := [] } := by
  unfold mainModel
  unfold usageInvocation at h
  rw [if_pos h]

theorem mainModel_mapFail (w : World) (h : ¬ usageInvocation w)
    (h2 : w.createMappingOk = false) :
    mainModel w =
      { exitCode := EXIT_FAILURE, printedUsage := false, printedNoClient := false
        touchedMapping := true, role := none, partner := none
        sharedAfter := w.sharedAtOpen, rounds := [] } := by
  unfold mainModel
  unfold usageInvocation at h
  rw [if_neg h, if_pos h2]

theorem mainModel_viewFail (w : World) (h : ¬ usageInvocation w)
    (h2 : w.createMappingOk = true) (h3 : w.mapViewOk = false) :
    mainModel w =
      { exitCode := EXIT_FAILURE, printedUsage := false, printedNoClient := false
        touchedMapping := true, role := none, partner := none
        sharedAfter := w.sharedAtOpen, rounds := [] } := by
  unfold mainModel
  unfold usageInvocation at h
  rw [if_neg h, if_neg (by simp [h2]), if_pos h3]

theorem mainModel_client (w : World) (h : ¬ usageInvocation w)
    (h2 : w.createMappingOk = true) (h3 : w.mapViewOk = true)
    (h4 : w.lastError = ERROR_ALREADY_EXISTS) :
    mainModel w =
      { exitCode := EXIT_SUCCESS, printedUsage := false, printedNoClient := false
        touchedMapping := true, role := some false
        partner := some w.sharedAtOpen.server_pid
        sharedAfter := { w.sharedAtOpen with client_pid := w.myPid }
        rounds := mainRounds false } := by
  unfold mainModel
  unfold usageInvocation at h
  rw [if_neg h, if_neg (by simp [h2]), if_neg (by simp [h3]), if_pos h4]

theorem mainModel_server_noJoin (w : World) (h : ¬ usageInvocation w)
    (h2 : w.createMappingOk = true) (h3 : w.mapViewOk = true)
    (h4 : w.lastError ≠ ERROR_ALREADY_EXISTS) (h5 : w.finalRead = 0) :
    mainModel w =
      { exitCode := EXIT_FAILURE, printedUsage := false, printedNoClient := true
        touchedMapping := true, role := some true, partner := none
        sharedAfter := { server_pid := w.myPid, client_pid := 0 }
        rounds := [] } := by
  unfold mainModel
  unfold usageInvocation at h
  rw [if_neg h, if_neg (by simp [h2]), if_neg (by simp [h3]), if_neg h4]
  simp [h5]

theorem mainModel_server_joined (w : World) (h : ¬ usageInvocation w)
    (h2 : w.createMappingOk = true) (h3 : w.mapViewOk = true)
    (h4 : w.lastError ≠ ERROR_ALREADY_EXISTS) (h5 : w.finalRead ≠ 0) :
    mainModel w =
      { exitCode := EXIT_SUCCESS, printedUsage := false, printedNoClient := false
        touchedMapping := true, role := some true, partner := some w.finalRead
        sharedAfter := { server_pid := w.myPid, client_pid := 0 }
        rounds := mainRounds true } := by
  unfold mainModel
  unfold usageInvocation at h
  rw [if_neg h, if_neg (by simp [h2]), if_neg (by simp [h3]), if_neg h4]
  simp [h5]

/-! ## Claim theorems -/

/-- True on the action recording the timed send loop. -/
def isSendBatch : RoundAction → Bool
  | .sendBatch _ => true
  | _ => false

/-- C1: the counter increments exactly on exception events whose code equals
the sentinel 0x1337 with at least two parameters; every other event leaves
the final count as if the event had not been delivered, whatever the rest
of the stream holds. -/
theorem counter_increments_iff_sentinel (iterations count : Nat)
    (event : DEBUG_EVENT) (rest : List WaitResult) (h : count < iterations) :
    (classifyEvent event = true ↔
      (event.dwDebugEventCode = EXCEPTION_DEBUG_EVENT ∧
        event.ExceptionRecord.ExceptionCode = kExceptionCommsCode ∧
        2 ≤ event.ExceptionRecord.NumberParameters)) ∧
    (classifyEvent event = true →
      (debugLoop iterations count (WaitResult.ok event :: rest)).count =
        (debugLoop iterations (count + 1) rest).count) ∧
    (classifyEvent event = false →
      (debugLoop iterations count (WaitResult.ok event :: rest)).count =
        (debugLoop iterations count rest).count) := by
  refine ⟨?_, ?_, ?_⟩
  · simp [classifyEvent, Bool.and_eq_true, beq_iff_eq, decide_eq_true_eq]
  · intro hc
    rw [debugLoop_cons_ok iterations count event rest (by omega)]
    simp [hc]
  · intro hc
    rw [debugLoop_cons_ok iterations count event rest (by omega)]
    simp [hc]

/-- Witness for C1 at a concrete sentinel event. -/
theorem counter_increments_iff_sentinel_witness :
    (0 : Nat) < 2 ∧
      (classifyEvent (sentinelEvent 7 8 4096 14) = true →
        (debugLoop 2 0 [WaitResult.ok (sentinelEvent 7 8 4096 14)]).count =
          (debugLoop 2 1 []).count) :=
  ⟨by decide,
    (counter_increments_iff_sentinel 2 0 (sentinelEvent 7 8 4096 14) []
      (by decide)).2.1⟩

/-- C2: in every execution of the counting loop, each received event is
immediately followed by exactly one ContinueDebugEvent call - with that
event's process id, thread id and DBG_CONTINUE - before the next wait, and
only a trailing failed wait is unacknowledged. -/
theorem every_event_acknowledged (iterations count : Nat)
    (stream : List WaitResult) :
    wellAcked (debugLoop iterations count stream).trace = true :=
  debugLoop_wellAcked iterations stream count

/-- C3: in a successful negotiation, the fresh creator becomes the server and
writes its own pid and a zero client pid, the opener becomes the client,
reads the server pid as its partner and writes its own pid, and each side
ends up with the other's pid as its partner. -/
theorem negotiation_mutual_pids (ws wc : World)
    (hs1 : ¬ usageInvocation ws) (hs2 : ws.createMappingOk = true)
    (hs3 : ws.mapViewOk = true) (hs4 : ws.lastError ≠ ERROR_ALREADY_EXISTS)
    (hc1 : ¬ usageInvocation wc) (hc2 : wc.createMappingOk = true)
    (hc3 : wc.mapViewOk = true) (hc4 : wc.lastError = ERROR_ALREADY_EXISTS)
    (hopen : wc.sharedAtOpen = (mainModel ws).sharedAfter)
    (hread : ws.finalRead = (mainModel wc).sharedAfter.client_pid)
    (hcpid : wc.myPid ≠ 0) :
    (mainModel ws).role = some true ∧
    (mainModel ws).sharedAfter = { server_pid := ws.myPid, client_pid := 0 } ∧
    (mainModel wc).role = some false ∧
    (mainModel wc).sharedAfter =
      { server_pid := ws.myPid, client_pid := wc.myPid } ∧
    (mainModel wc).partner = some ws.myPid ∧
    (mainModel ws).partner = some wc.myPid := by
  have hsShared :
      (mainModel ws).sharedAfter = { server_pid := ws.myPid, client_pid := 0 } := by
    by_cases h5 : ws.finalRead = 0
    · rw [mainModel_server_noJoin ws hs1 hs2 hs3 hs4 h5]
    · rw [mainModel_server_joined ws hs1 hs2 hs3 hs4 h5]
  have hopen' : wc.sharedAtOpen = { server_pid := ws.myPid, client_pid := 0 } := by
    rw [hopen, hsShared]
  have hcm := mainModel_client wc hc1 hc2 hc3 hc4
  have hcShared : (mainModel wc).sharedAfter =
      { server_pid := ws.myPid, client_pid := wc.myPid } := by
    rw [hcm]; simp [hopen']
  have hfr : ws.finalRead = wc.myPid := by rw [hread, hcShared]
  have hfr0 : ws.finalRead ≠ 0 := by rw [hfr]; exact hcpid
  have hsm := mainModel_server_joined ws hs1 hs2 hs3 hs4 hfr0
  refine ⟨?_, hsShared, ?_, hcShared, ?_, ?_⟩
  · rw [hsm]
  · rw [hcm]
  · rw [hcm]; simp [hopen']
  · rw [hsm]; simp [hfr]

/-- A concrete server-side world for the C3 witness. -/
def wsC3 : World :=
  { argv := ["prog", "speed"], createMappingOk := true, mapViewOk := true
    lastError := 0, myPid := 41, sharedAtOpen := ⟨0, 0⟩
    pollReads := fun _ => 42, finalRead := 42 }

/-- A concrete client-side world for the C3 witness. -/
def wcC3 : World :=
  { argv := ["prog", "speed"], createMappingOk := true, mapViewOk := true
    lastError := ERROR_ALREADY_EXISTS, myPid := 42
    sharedAtOpen := ⟨41, 0⟩, pollReads := fun _ => 0, finalRead := 0 }

/-- Witness for C3 at a concrete pair of worlds. -/
theorem negotiation_mutual_pids_witness :
    wcC3.myPid ≠ 0 ∧
      (mainModel wcC3).partner = some wsC3.myPid ∧
      (mainModel wsC3).partner = some wcC3.myPid :=
  ⟨by decide,
    (negotiation_mutual_pids wsC3 wcC3 (by decide) rfl rfl (by decide)
      (by decide) rfl rfl rfl (by decide) (by decide) (by decide)).2.2.2.2⟩

/-- C4: SendMessageException raises an exception with exactly two machine-word
parameters - the payload address and its size plus one terminator byte -
and the frame handles the exception itself, so the call returns normally. -/
theorem sender_raises_two_params (messageAddr messageSize : Nat)
    (haddr : messageAddr < ULONG_PTR_MOD)
    (hlen : messageSize + 1 < ULONG_PTR_MOD) :
    (SendMessageException messageAddr messageSize).1.nNumberOfArguments = 2 ∧
    (SendMessageException messageAddr messageSize).1.lpArguments.length = 2 ∧
    (SendMessageException messageAddr messageSize).1.lpArguments =
      [messageAddr, messageSize + 1] ∧
    (SendMessageException messageAddr messageSize).1.ExceptionCode =
      kExceptionCommsCode ∧
    (SendMessageException messageAddr messageSize).2 =
      SehResult.handledLocally := by
  unfold SendMessageException
  refine ⟨rfl, rfl, ?_, rfl, ?_⟩
  · simp [Nat.mod_eq_of_lt haddr, Nat.mod_eq_of_lt hlen]
  · simp [sehDispatch]

/-- Witness for C4 at a concrete payload (address 4096, 13 bytes of text). -/
theorem sender_raises_two_params_witness :
    ((4096 : Nat) < ULONG_PTR_MOD ∧ (13 : Nat) + 1 < ULONG_PTR_MOD) ∧
      (SendMessageException 4096 13).1.lpArguments = [4096, 14] :=
  ⟨⟨by decide, by decide⟩,
    (sender_raises_two_params 4096 13 (by decide) (by decide)).2.2.1⟩

/-- C5: the loop exits with the target reached exactly when the count equals
the target; a wait failure ends the loop at once with a partial count, the
failure report is the last trace entry, and no second wait failure (hence
no retried wait) can occur. -/
theorem loop_exit_characterized (iterations : Nat) (stream : List WaitResult) :
    ((debugLoop iterations 0 stream).exit = LoopExit.reachedTarget ↔
      (debugLoop iterations 0 stream).count = iterations) ∧
    ((debugLoop iterations 0 stream).exit = LoopExit.waitFailure →
      (debugLoop iterations 0 stream).count < iterations ∧
      (debugLoop iterations 0 stream).trace.getLast? =
        some DbgAction.waitFail) ∧
    numWaitFail (debugLoop iterations 0 stream).trace ≤ 1 := by
  have h0 : (0 : Nat) ≤ iterations := Nat.zero_le _
  refine ⟨debugLoop_exit_reached_iff iterations stream 0 h0, ?_, ?_⟩
  · intro hx
    refine ⟨?_, debugLoop_waitFailure_last iterations stream 0 hx⟩
    have hle := debugLoop_count_le iterations stream 0 h0
    have hiff := debugLoop_exit_reached_iff iterations stream 0 h0
    have hne : ¬ (debugLoop iterations 0 stream).count = iterations := by
      intro he
      have h2 := hiff.mpr he
      rw [hx] at h2
      exact LoopExit.noConfusion h2
    omega
  · rw [debugLoop_numWaitFail iterations stream 0]
    split <;> omega

/-- Witness for C5 at a concrete failing stream. -/
theorem loop_exit_characterized_witness :
    (debugLoop 1 0 [WaitResult.fail]).exit = LoopExit.waitFailure ∧
      ((debugLoop 1 0 [WaitResult.fail]).count < 1 ∧
        (debugLoop 1 0 [WaitResult.fail]).trace.getLast? =
          some DbgAction.waitFail) :=
  ⟨by decide, (loop_exit_characterized 1 [WaitResult.fail]).2.1 (by decide)⟩

/-- C6: in round 1 the server-role process sends and the other counts; round 2
inverts the roles; the sending side of each round sleeps 3 seconds before
its send loop while the counting side starts immediately; and within one
process the round 2 actions follow all round 1 actions. -/
theorem round_roles_and_warmup :
    ∀ b : Bool,
      ((RunSpeedTestRound b).any isSendBatch = b) ∧
      ((RunSwapRoleRound b).any isSendBatch = !b) ∧
      (b = true →
        RunSpeedTestRound b =
          [RoundAction.sleepSeconds 3, RoundAction.sendBatch kTestIterations] ∧
        RunSwapRoleRound b = [RoundAction.countEvents kTestIterations]) ∧
      (b = false →
        RunSpeedTestRound b = [RoundAction.countEvents kTestIterations] ∧
        RunSwapRoleRound b =
          [RoundAction.sleepSeconds 3, RoundAction.sendBatch kTestIterations]) ∧
      mainRounds b = RunSpeedTestRound b ++ RunSwapRoleRound b := by
  intro b
  cases b with
  | false =>
      exact ⟨rfl, rfl, fun h => absurd h (by decide),
        fun _ => ⟨rfl, rfl⟩, rfl⟩
  | true =>
      exact ⟨rfl, rfl, fun _ => ⟨rfl, rfl⟩,
        fun h => absurd h (by decide), rfl⟩

/-- Witness for C6 with the server role. -/
theorem round_roles_and_warmup_witness :
    true = true ∧
      (RunSpeedTestRound true =
        [RoundAction.sleepSeconds 3, RoundAction.sendBatch kTestIterations] ∧
      RunSwapRoleRound true = [RoundAction.countEvents kTestIterations]) :=
  ⟨rfl, (round_roles_and_warmup true).2.2.1 rfl⟩

/-- C7: a server that still reads a zero client pid after the poll window
prints the no-client message, exits with the failure status, runs no round,
and the poll loop itself performs at most 10 steps. -/
theorem server_no_client (w : World) (h1 : ¬ usageInvocation w)
    (h2 : w.createMappingOk = true) (h3 : w.mapViewOk = true)
    (h4 : w.lastError ≠ ERROR_ALREADY_EXISTS) (h5 : w.finalRead = 0) :
    (mainModel w).printedNoClient = true ∧
    (mainModel w).exitCode = EXIT_FAILURE ∧
    (mainModel w).rounds = [] ∧
    ∀ reads : Nat → Nat, pollLoop reads 0 ≤ 10 := by
  rw [mainModel_server_noJoin w h1 h2 h3 h4 h5]
  refine ⟨rfl, rfl, rfl, fun reads => ?_⟩
  have := pollLoop_le reads 0
  omega

/-- A lone-server world for the C7 witness. -/
def wC7 : World :=
  { argv := ["prog", "speed"], createMappingOk := true, mapViewOk := true
    lastError := 0, myPid := 55, sharedAtOpen := ⟨0, 0⟩
    pollReads := fun _ => 0, finalRead := 0 }

/-- Witness for C7 at a concrete lone-server world. -/
theorem server_no_client_witness :
    wC7.finalRead = 0 ∧
      ((mainModel wC7).exitCode = EXIT_FAILURE ∧ (mainModel wC7).rounds = []) :=
  ⟨rfl,
    ⟨(server_no_client wC7 (by decide) rfl rfl (by decide) rfl).2.1,
      (server_no_client wC7 (by decide) rfl rfl (by decide) rfl).2.2.1⟩⟩

/-- C8: the exit status is the failure code exactly when the mapping creation
or the view mapping fails, or the process is the server and the final
client-pid read is zero; any invocation without the literal speed argument
prints usage and exits with the success status, touching no shared memory
and running no round; and the exit status is always one of the two codes. -/
theorem exit_status_characterized (w : World) :
    ((mainModel w).exitCode = EXIT_FAILURE ↔
      ¬ usageInvocation w ∧
        (w.createMappingOk = false ∨ w.mapViewOk = false ∨
          (w.lastError ≠ ERROR_ALREADY_EXISTS ∧ w.finalRead = 0))) ∧
    (usageInvocation w →
      (mainModel w).printedUsage = true ∧
      (mainModel w).exitCode = EXIT_SUCCESS ∧
      (mainModel w).touchedMapping = false ∧
      (mainModel w).rounds = []) ∧
    ((mainModel w).exitCode = EXIT_SUCCESS ∨
      (mainModel w).exitCode = EXIT_FAILURE) := by
  by_cases h1 : usageInvocation w
  · rw [mainModel_usage w h1]
    exact ⟨by simp [EXIT_SUCCESS, EXIT_FAILURE, h1],
      fun _ => ⟨rfl, rfl, rfl, rfl⟩, Or.inl rfl⟩
  · cases hcm : w.createMappingOk with
    | false =>
        rw [mainModel_mapFail w h1 hcm]
        exact ⟨by simp [EXIT_FAILURE, h1, hcm], fun hu => absurd hu h1,
          Or.inr rfl⟩
    | true =>
        cases hmv : w.mapViewOk with
        | false =>
            rw [mainModel_viewFail w h1 hcm hmv]
            exact ⟨by simp [EXIT_FAILURE, h1, hcm, hmv],
              fun hu => absurd hu h1, Or.inr rfl⟩
        | true =>
            by_cases hle : w.lastError = ERROR_ALREADY_EXISTS
            · rw [mainModel_client w h1 hcm hmv hle]
              exact ⟨by simp [EXIT_SUCCESS, EXIT_FAILURE, h1, hcm, hmv, hle],
                fun hu => absurd hu h1, Or.inl rfl⟩
            · by_cases hfr : w.finalRead = 0
              · rw [mainModel_server_noJoin w h1 hcm hmv hle hfr]
                exact ⟨by simp [EXIT_FAILURE, h1, hcm, hmv, hle, hfr],
                  fun hu => absurd hu h1, Or.inr rfl⟩
              · rw [mainModel_server_joined w h1 hcm hmv hle hfr]
                exact ⟨by simp [EXIT_SUCCESS, EXIT_FAILURE, h1, hcm, hmv,
                  hle, hfr], fun hu => absurd hu h1, Or.inl rfl⟩

/-- A usage-line world for the C8 witness (no speed argument). -/
def wC8 : World :=
  { argv := ["prog"], createMappingOk := true, mapViewOk := true
    lastError := 0, myPid := 9, sharedAtOpen := ⟨0, 0⟩
    pollReads := fun _ => 0, finalRead := 0 }

/-- Witness for C8 at a concrete usage invocation. -/
theorem exit_status_characterized_witness :
    usageInvocation wC8 ∧
      ((mainModel wC8).printedUsage = true ∧
        (mainModel wC8).exitCode = EXIT_SUCCESS ∧
        (mainModel wC8).touchedMapping = false ∧
        (mainModel wC8).rounds = []) :=
  ⟨by decide, (exit_status_characterized wC8).2.1 (by decide)⟩

/-- C9: when attaching fails, DebugPartnerProcess logs the failure and returns
with a zero count, an empty trace and no detach attempt; the round sequence
of the program is fixed, so the next round still follows. -/
theorem attach_failure_returns_early (iterations : Nat) (w : DebugWorld)
    (h : w.attachOk = false) :
    (DebugPartnerProcess iterations w).attachFailLogged = true ∧
    (DebugPartnerProcess iterations w).count = 0 ∧
    (DebugPartnerProcess iterations w).trace = [] ∧
    (DebugPartnerProcess iterations w).detachCalled = false ∧
    ∀ b : Bool, mainRounds b = RunSpeedTestRound b ++ RunSwapRoleRound b := by
  unfold DebugPartnerProcess
  rw [if_pos h]
  exact ⟨rfl, rfl, rfl, rfl, fun b => rfl⟩

/-- Witness for C9 at a concrete failing attach. -/
theorem attach_failure_returns_early_witness :
    (DebugWorld.mk false [] true).attachOk = false ∧
      (DebugPartnerProcess 5 (DebugWorld.mk false [] true)).count = 0 :=
  ⟨rfl, (attach_failure_returns_early 5 (DebugWorld.mk false [] true) rfl).2.1⟩

/-- C10: from any reachable state the count never decreases and grows by at
most the number of received events; starting from zero it never exceeds the
target, and it equals the target exactly on a normal (target-reached)
exit. -/
theorem counter_invariants (iterations : Nat) (stream : List WaitResult) :
    (∀ (count : Nat) (s : List WaitResult),
      count ≤ (debugLoop iterations count s).count ∧
      (debugLoop iterations count s).count ≤
        count + numWaitOk (debugLoop iterations count s).trace) ∧
    (debugLoop iterations 0 stream).count ≤ iterations ∧
    ((debugLoop iterations 0 stream).exit = LoopExit.reachedTarget →
      (debugLoop iterations 0 stream).count = iterations) := by
  refine ⟨fun count s => ⟨debugLoop_count_ge iterations s count,
      debugLoop_count_le_events iterations s count⟩,
    debugLoop_count_le iterations stream 0 (Nat.zero_le _), ?_⟩
  exact (debugLoop_exit_reached_iff iterations stream 0 (Nat.zero_le _)).mp

/-- Witness for C10 at a concrete two-event stream. -/
theorem counter_invariants_witness :
    (debugLoop 2 0 [WaitResult.ok (sentinelEvent 9 9 64 14),
        WaitResult.ok (sentinelEvent 9 9 64 14)]).exit =
      LoopExit.reachedTarget ∧
    (debugLoop 2 0 [WaitResult.ok (sentinelEvent 9 9 64 14),
        WaitResult.ok (sentinelEvent 9 9 64 14)]).count = 2 :=
  ⟨by decide,
    (counter_invariants 2 [WaitResult.ok (sentinelEvent 9 9 64 14),
        WaitResult.ok (sentinelEvent 9 9 64 14)]).2.2 (by decide)⟩

end ExceptionComms
